import Mathlib

/-!
Verification of the pysled Sled codec (parser and serializers) against its
natural-language specification.

The Python sources are shallowly embedded below:
- `spec.py` becomes the character-class predicates and numeric bounds;
- `_parser_metadata.py` / `_sled_error.py` become `SledType`, `ParseSnapshot`,
  `SledErrorCategory`, `SledError`;
- `_parser.py` becomes state-passing functions in the `PM` monad
  (`StateT PState (Except PyExc)`), with explicit fuel for every Python
  `while` loop and for the recursive descent (fuel exhaustion is a
  distinguished `PyExc.outOfFuel` that never fires at the fuel supplied);
- `_serializer_basic.py`, `_serializer.py`, `_serializer_mini.py` become
  pure functions over the `Entity` value model, with a variant tag for the
  canonical/minified subclasses' method overrides.

Python-level behaviours that matter to the claims are modelled explicitly:
an attribute access on a never-assigned attribute is `PyExc.attributeError`,
an `==` comparison between a one-character string and a `frozenset` is the
constantly-false `pyEqCharFrozenset`, and the un-called bound method
`content.upper` is the `PyStr.boundMethodUpper` constructor.
-/

namespace Sled

/-! ## Character classes from `spec.py` -/

/-- `C0_CONTROL_SET`: the 32 C0 control characters plus DEL. -/
def isC0ControlOrDel (c : Char) : Bool :=
  c.val < 32 || c.val == 127

/-- `HORIZONTAL_SPACE_SET = frozenset(" \t")`. -/
def horizontalSpaceChar (c : Char) : Bool :=
  c == ' ' || c == '\t'

/-- `DELIMITER_OR_HORIZONTAL_SPACE_SET = HORIZONTAL_SPACE_SET ∪ {";"}`. -/
def delimiterOrHorizontalSpaceChar (c : Char) : Bool :=
  horizontalSpaceChar c || c == ';'

/-- `COMMENT_DISALLOWED_SYMBOLS = C0_CONTROL_SET ∪ {EMPTY} - {TAB}`;
the `none` case is the empty string used by `_peek` to signal end of input. -/
def memCommentDisallowed : Option Char → Bool
  | Option.none => true
  | some c => (c.val < 32 && !(c == '\t')) || c.val == 127

/-- `RESTRICTED_QUOTE_SYMBOLS = C0_CONTROL_SET ∪ {ESCAPE_CHARACTER, EMPTY} - {TAB}`. -/
def memRestrictedQuote : Option Char → Bool
  | Option.none => true
  | some c => (c.val < 32 && !(c == '\t')) || c.val == 127 || c == '\\'

/-- `NUMBER_START_SET = DIGIT_SET ∪ {"_"} ∪ SIGN_SET ∪ DECIMAL_MARK_SET`. -/
def numberStartChar (c : Char) : Bool :=
  c.isDigit || c == '_' || c == '+' || c == '-' || c == '.' || c == ','

/-- `IDENTITY_DISALLOWED_SYMBOLS` (`spec.py` lines 209-222): the restricted
quote symbols plus horizontal space, both quote marks, the backslash, the
container symbols (`; = { } [ ] < >`), both parentheses and the comment mark. -/
def identityDisallowedChar (c : Char) : Bool :=
  (c.val < 32 && !(c == '\t')) || c.val == 127 || c == '\\'
    || horizontalSpaceChar c || c == '\'' || c == '"'
    || c == ';' || c == '=' || c == '\x7b' || c == '\x7d'
    || c == '[' || c == ']' || c == '<' || c == '>'
    || c == '(' || c == ')' || c == '#'

/-- `IDENTITY_DISALLOWED_SYMBOLS` on `_peek` results (the empty string is a
member, via `RESTRICTED_QUOTE_SYMBOLS`). -/
def memIdentityDisallowed : Option Char → Bool
  | Option.none => true
  | some c => identityDisallowedChar c

/-- `IDENTITY_DISALLOWED_START_SYMBOLS = IDENTITY_DISALLOWED_SYMBOLS ∪
NUMBER_START_SET ∪ {KEYWORD_MARK}` (`spec.py` lines 224-235). -/
def memIdentityDisallowedStart : Option Char → Bool
  | Option.none => true
  | some c => identityDisallowedChar c || numberStartChar c || c == '@'

/-- `KEYWORD_CHAR_SET = digits, ASCII letters and the underscore`. -/
def memKeywordChar : Option Char → Bool
  | Option.none => false
  | some c => c.isDigit || c.isAlpha || c == '_'

/-- `OPTIONAL_DIGIT_SET = DIGIT_SET ∪ {DIGIT_SEPARATOR}`. -/
def memOptionalDigit : Option Char → Bool
  | Option.none => false
  | some c => c.isDigit || c == '_'

/-- `QUOTE_MARK_SET = {"'", '"'}`. -/
def memQuoteMark : Option Char → Bool
  | Option.none => false
  | some c => c == '\'' || c == '"'

/-- `SIGN_SET = {"-", "+"}`. -/
def memSign : Option Char → Bool
  | Option.none => false
  | some c => c == '+' || c == '-'

/-- `DECIMAL_MARK_SET = {".", ","}`. -/
def memDecimalMark : Option Char → Bool
  | Option.none => false
  | some c => c == '.' || c == ','

/-- `EXPONENT_PREFIX_SET = {"E", "e"}`. -/
def memExponentPrefix : Option Char → Bool
  | Option.none => false
  | some c => c == 'e' || c == 'E'

/-- `string.hexdigits` plus the digit separator: `HEX_DIGIT_SET`. -/
def hexDigitChar (c : Char) : Bool :=
  c.isDigit || ('a' ≤ c && c ≤ 'f') || ('A' ≤ c && c ≤ 'F') || c == '_'

/-- `HEX_DIGIT_SET` on `_peek` results. -/
def memHexDigit : Option Char → Bool
  | Option.none => false
  | some c => hexDigitChar c

/-- `HEX_CHAR_SET = HEX_DIGIT_SET ∪ HORIZONTAL_SPACE_SET ∪ WS_SET`
(the two-character CRLF member of `WS_SET` can never equal a single char). -/
def memHexChar : Option Char → Bool
  | Option.none => false
  | some c => hexDigitChar c || horizontalSpaceChar c || c == '\n' || c == '\r'

/-- `DELIMITER_SET.isdisjoint(ws)` negated: does the consumed run contain a
`;`, LF or CR?  (The CRLF member of the set has length 2 and can never equal
one character of `ws`.) -/
def wsContainsDelimiter (ws : List Char) : Bool :=
  ws.any (fun c => c == ';' || c == '\n' || c == '\r')

/-- `SLED_INTEGER_MIN = -(2 ** 63)`. -/
def SLED_INTEGER_MIN : Int := -9223372036854775808

/-- `SLED_INTEGER_MAX = 2 ** 63 - 1`. -/
def SLED_INTEGER_MAX : Int := 9223372036854775807

/-! ## Value model (`spec.py` type groups, `_parser_metadata.py`) -/

/-- A Python `float` as the Sled core distinguishes it: the three keyword
values and finite values.  Finite values are carried symbolically as the
literal string handed to Python's `float()`; none of the claims below
depends on finite float arithmetic, only on the NaN/Infinity distinction. -/
inductive PyFloat where
  | nan
  | inf
  | ninf
  | finite (lit : String)
deriving DecidableEq, Repr

/-- `math.isnan`. -/
def pyIsNan : PyFloat → Bool
  | .nan => true
  | _ => false

/-- `math.isinf`. -/
def pyIsInf : PyFloat → Bool
  | .inf => true
  | .ninf => true
  | _ => false

/-- `x < 0` as the serializer asks it of a float already known infinite. -/
def pyFloatLtZero : PyFloat → Bool
  | .ninf => true
  | _ => false

/-- A value that Python code may use as a map key: the parser produces
`str` or `int` keys, and `_parse_map_key` can transiently produce a `float`
before `_handle_map_first_key` rejects it. -/
inductive PyKeyVal where
  | s (v : String)
  | i (v : Int)
  | f (v : PyFloat)
deriving DecidableEq, Repr

/-- The `Entity` union of `spec.py`: every value a Sled document can hold.
`dict` mirrors a Python `dict` as an insertion-ordered association list. -/
inductive Entity where
  | none
  | bool (b : Bool)
  | int (n : Int)
  | float (f : PyFloat)
  | bytes (bs : List Nat)
  | str (s : String)
  | dict (pairs : List (PyKeyVal × Entity))
  | list (xs : List Entity)

/-- Convert a parsed key value to the `Entity` it is when used as a value. -/
def PyKeyVal.toEntity : PyKeyVal → Entity
  | .s v => .str v
  | .i v => .int v
  | .f v => .float v

/-- `SledType` from `_parser_metadata.py`. -/
inductive SledType where
  | NIL
  | BOOLEAN
  | INTEGER
  | FLOAT
  | HEX
  | STRING
  | SMAP
  | IMAP
  | LIST
deriving DecidableEq, Repr

/-- `SledType.__str__` returns the enum's value string. -/
def sledTypeStr : Option SledType → String
  | Option.none => "None"
  | some .NIL => "nil"
  | some .BOOLEAN => "boolean"
  | some .INTEGER => "integer"
  | some .FLOAT => "float"
  | some .HEX => "hex"
  | some .STRING => "string"
  | some .SMAP => "smap"
  | some .IMAP => "imap"
  | some .LIST => "list"

/-- `ParseSnapshot` from `_parser_metadata.py`. -/
structure ParseSnapshot where
  startIndex : Nat
  endIndex : Nat
  lineStart : Nat
  lineNum : Nat
  sledType : Option SledType
deriving DecidableEq, Repr

/-! ## Error model (`_sled_error.py`) -/

/-- `SledErrorCategory`. -/
inductive SledErrorCategory where
  | SYNTAX
  | MAP_KEY_TYPE
  | DUPLICATE_MAP_KEY
  | NUMBER_RANGE
deriving DecidableEq, Repr

/-- `SledError`: the formatted message, the category, the reason sentence and
the 1-based line number of the offending line (0 when not applicable). -/
structure SledError where
  errorMessage : String
  errorCategory : SledErrorCategory
  reason : String
  startLineNum : Nat
deriving DecidableEq, Repr

/-- Every way the embedded Python code can terminate abnormally.  `sled` is
the library's own `SledError`; the others are built-in Python exceptions the
code can raise, and `outOfFuel` is an artifact of the fuel-based embedding
that never occurs at the fuel supplied by the entry points. -/
inductive PyExc where
  | sled (e : SledError)
  | valueError (msg : String)
  | typeError (msg : String)
  | attributeError (attr : String)
  | indexError
  | outOfFuel
deriving DecidableEq, Repr

/-! ## Models of Python built-ins used by the core -/

/-- Two lowercase hex digits of a byte value, as `bytes.hex` renders it. -/
def hexByteLower (n : Nat) : String :=
  let digit := fun (d : Nat) =>
    if d < 10 then Char.ofNat (48 + d) else Char.ofNat (87 + d)
  String.mk [digit (n / 16 % 16), digit (n % 16)]

/-- Python `repr` of a string of length at most one, as it appears in the
parser's error messages (`repr(self._peek())` and similar). -/
def pyRepr : Option Char → String
  | Option.none => "''"
  | some c =>
    if c == '\'' then "\"'\""
    else if c == '\\' then "'\\\\'"
    else if c == '\n' then "'\\n'"
    else if c == '\r' then "'\\r'"
    else if c == '\t' then "'\\t'"
    else if c.val < 32 || c.val == 127 then "'\\x" ++ hexByteLower c.toNat ++ "'"
    else String.mk ['\'', c, '\'']

/-- Python `int()` of a string made of an optional sign and decimal digits
(the only shape the parser hands it, after separator removal). -/
def pyIntOfDigits (ds : List Char) : Int :=
  (ds.foldl (fun acc c => acc * 10 + (c.toNat - 48)) 0 : Nat)

/-- Python `int()` on the parser's sign-plus-digits strings. -/
def pyIntOfString : List Char → Int
  | '-' :: ds => -(pyIntOfDigits ds)
  | '+' :: ds => pyIntOfDigits ds
  | ds => pyIntOfDigits ds

/-- Value of one hexadecimal digit. -/
def hexDigitVal (c : Char) : Nat :=
  if c.isDigit then c.toNat - 48
  else if 'a' ≤ c && c ≤ 'f' then c.toNat - 87
  else c.toNat - 55

/-- Python `int(s, 16)`: hexadecimal conversion tolerating single
underscores between digits; empty strings, misplaced underscores and
non-hex characters raise `ValueError`.  The parser only calls it on
strings of hex digits and underscores. -/
def pyIntHex (s : List Char) : Except PyExc Nat :=
  if s.isEmpty then .error (.valueError "invalid literal for int() with base 16")
  else if s.head? == some '_' || s.getLast? == some '_' then
    .error (.valueError "invalid literal for int() with base 16")
  else if (s.zip s.tail).any (fun p => p.1 == '_' && p.2 == '_') then
    .error (.valueError "invalid literal for int() with base 16")
  else
    .ok ((s.filter (fun c => !(c == '_'))).foldl
      (fun acc c => acc * 16 + hexDigitVal c) 0)

/-- Python `chr`: raises `ValueError` above `0x10FFFF`.  (Lean's `Char`
excludes the surrogate range which Python `chr` accepts; no input in this
development produces a surrogate code point.) -/
def pyChr (n : Nat) : Except PyExc Char :=
  if h : n < 0xD800 ∨ (0xDFFF < n ∧ n < 0x110000) then
    .ok (Char.ofNatAux n h)
  else
    .error (.valueError "chr() arg not in range(0x110000)")

/-- Python `bytes.fromhex` on strings of hex digits and underscores
(whitespace was already filtered out by `_parse_hex_content`): pairs of hex
digits form bytes; an underscore or an odd trailing digit is a `ValueError`. -/
def pyBytesFromHex : List Char → Except PyExc (List Nat)
  | [] => .ok []
  | [_] => .error (.valueError "non-hexadecimal number found in fromhex() arg")
  | a :: b :: rest =>
    if a == '_' || b == '_' then
      .error (.valueError "non-hexadecimal number found in fromhex() arg")
    else
      match pyBytesFromHex rest with
      | .ok bs => .ok ((hexDigitVal a * 16 + hexDigitVal b) :: bs)
      | .error e => .error e

/-- Digits of a natural number, leftmost first (Python `str` of a `Nat`). -/
def natDigits (n : Nat) : List Char :=
  (toString n).data

/-- Helper for thousands grouping: on the reversed digit list, insert an
underscore after every three digits (when more digits follow). -/
def chunkThreesRev : List Char → List Char
  | a :: b :: c :: rest =>
    match rest with
    | [] => [a, b, c]
    | _ :: _ => a :: b :: c :: '_' :: chunkThreesRev rest
  | l => l

/-- Group a digit list in threes from the right with underscores. -/
def groupThousands (ds : List Char) : List Char :=
  (chunkThreesRev ds.reverse).reverse

/-- Python `f"{n:_d}"`: decimal digits grouped in thousands by underscores. -/
def pyFormatIntThousands (n : Int) : String :=
  if n < 0 then String.mk ('-' :: groupThousands (natDigits n.natAbs))
  else String.mk (groupThousands (natDigits n.natAbs))

/-- Python `f"{n:d}"`. -/
def pyFormatIntPlain (n : Int) : String :=
  if n < 0 then String.mk ('-' :: natDigits n.natAbs)
  else String.mk (natDigits n.natAbs)

/-- Python `str.isspace` on one character (ASCII whitespace; the Unicode
space characters also recognised by Python do not occur in this
development's inputs). -/
def pyIsSpaceChar (c : Char) : Bool :=
  c == ' ' || c == '\t' || c == '\n' || c == '\r' || c == '\x0b' || c == '\x0c'

/-- The constantly-false comparison at `_parser.py` line 432,
`c == NUMBER_START_SET`: in Python an `==` between a one-character `str`
and a `frozenset` is always `False` (neither type's `__eq__` accepts the
other, and they are distinct objects). -/
def pyEqCharFrozenset (_ : Option Char) : Bool := false

/-! ## Parser state and monad (`_parser.py`) -/

/-- The mutable fields of the `Parser` class: the standardized text, the
cursor, the 1-based current line number and the current line's start. -/
structure PState where
  text : List Char
  index : Nat
  lineNum : Nat
  lineStart : Nat
deriving DecidableEq, Repr

/-- The parser's effect signature: state plus Python exceptions. -/
abbrev PM (α : Type) := StateT PState (Except PyExc) α

/-- `standardize_line_separator`: first replace every CRLF by LF
(leftmost, non-overlapping, as `str.replace` scans), then every CR by LF. -/
def replaceCRLF : List Char → List Char
  | '\r' :: '\n' :: rest => '\n' :: replaceCRLF rest
  | c :: rest => c :: replaceCRLF rest
  | [] => []

/-- `standardize_line_separator` from `_parser.py`. -/
def standardizeLineSeparator (s : List Char) : List Char :=
  (replaceCRLF s).map (fun c => if c == '\r' then '\n' else c)

/-- `remove_digit_separator`: drop every underscore. -/
def removeDigitSeparator (s : List Char) : List Char :=
  s.filter (fun c => !(c == '_'))

/-- `Parser._is_at_end`. -/
def isAtEnd : PM Bool := do
  let s ← get
  pure (s.index == s.text.length)

/-- `Parser._peek`: the character at the cursor, the empty string (`none`)
exactly at the end, and the re-raised `IndexError` past the end. -/
def peek : PM (Option Char) := do
  let s ← get
  match s.text.get? s.index with
  | some c => pure (some c)
  | Option.none =>
    if s.index == s.text.length then pure Option.none
    else throw .indexError

/-- `Parser._advance`. -/
def advance : PM Unit :=
  modify (fun s => { s with index := s.index + 1 })

/-- `Parser._next`. -/
def next : PM (Option Char) := do
  advance
  peek

/-- Current cursor position. -/
def curIndex : PM Nat := do
  pure (← get).index

/-- `Parser._get_range`: `self._text[start_index:end_index]`, silently
truncating out-of-range indices exactly as a Python slice does. -/
def getRange (a b : Nat) : PM (List Char) := do
  let s ← get
  pure ((s.text.drop a).take (b - a))

/-- A fuel bound that dominates every remaining loop iteration count:
one more than the length of the text. -/
def loopFuel : PM Nat := do
  pure ((← get).text.length + 1)

/-- The Python pattern `while self._next() in S: pass` (and, negated,
`while self._next() not in S: pass` via `p := fun c => !(S c)`). -/
def advanceWhile : Nat → (Option Char → Bool) → PM Unit
  | 0, _ => throw .outOfFuel
  | fuel + 1, p => do
    let c ← next
    if p c then advanceWhile fuel p else pure ()

/-- First occurrence of `c` in `text` at or after `start` (`str.find`). -/
def listFindFrom (text : List Char) (c : Char) (start : Nat) : Option Nat :=
  match (text.drop start).findIdx? (fun x => x == c) with
  | some i => some (start + i)
  | Option.none => Option.none

/-- `str.find(sub, start, end)` for a single character: search only in
`text[start:stop]`. -/
def listFindInRange (text : List Char) (c : Char) (start stop : Nat) : Option Nat :=
  match ((text.drop start).take (stop - start)).findIdx? (fun x => x == c) with
  | some i => some (start + i)
  | Option.none => Option.none

/-- `Parser._find_line_end`. -/
def findLineEnd (text : List Char) (start : Nat) : Nat :=
  match listFindFrom text '\n' start with
  | some i => i
  | Option.none => text.length

/-! ## Error construction (`_sled_error.py`, `Parser._make_invalid_sled_error`) -/

/-- `_len_leading_horizontal_space`. -/
def lenLeadingHorizontalSpace : List Char → Nat
  | [] => 0
  | c :: rest =>
    if horizontalSpaceChar c then lenLeadingHorizontalSpace rest + 1 else 0

/-- `SledError.make_short_parse_error`: validates the indices, truncates the
context line to at most `MAX_ERROR_CONTEXT_LEN = 80` characters before and
after the invalid span, strips leading horizontal space, and assembles the
pointer-annotated message.  Indices here are naturals; the two places where
the Python code forms a possibly-negative difference (`line_length -
end_index` and the final `" " * len_before_invalid`) behave identically
under truncated subtraction, since Python compares the difference with 80
and multiplies the string by it, both of which treat every negative value
like zero here. -/
def makeShortParseError (reason : String) (category : SledErrorCategory)
    (line : List Char) (lineNum startIndex endIndex : Nat) :
    Except PyExc SledError :=
  let lineLength := line.length
  if !(startIndex < endIndex && endIndex ≤ lineLength + 1) then
    .error (.valueError
      ("At least one invalid index given when specifying the location "
        ++ "of the invalid Sled input."))
  else if line.dropLast.contains '\n' then
    .error (.valueError
      ("The line argument should be a single line that does not contain "
        ++ "any line separators."))
  else
    let line1 :=
      if 80 < lineLength - endIndex then line.take (endIndex + 80) ++ "...".data
      else line
    let initialStripIndex := lenLeadingHorizontalSpace line1
    let line2 := line1.drop initialStripIndex
    let lenBeforeInvalid := startIndex - initialStripIndex
    let line3 :=
      if 80 < lenBeforeInvalid then "...".data ++ line2.drop (lenBeforeInvalid - 80)
      else line2
    let lenBeforeInvalid2 := if 80 < lenBeforeInvalid then 83 else lenBeforeInvalid
    let errorMessage :=
      reason ++ "\n"
        ++ "Line " ++ toString lineNum ++ ", from index "
        ++ toString startIndex ++ " to " ++ toString endIndex ++ ":\n"
        ++ String.mk line3 ++ "\n"
        ++ String.mk (List.replicate lenBeforeInvalid2 ' ')
        ++ String.mk (List.replicate (endIndex - startIndex) '^')
    .ok { errorMessage := errorMessage, errorCategory := category,
          reason := reason, startLineNum := lineNum }

/-- `SledError.make_duplicate_map_key_error`: group the parsed keys (in
first-occurrence order, as `defaultdict` preserves insertion), and list,
for every key occurring more than once, each occurrence's line number and
index within its line. -/
def makeDuplicateMapKeyError (data : List (PyKeyVal × ParseSnapshot))
    (startLineNum startIndexWithinLine : Nat) : SledError :=
  let keyStr := fun (k : PyKeyVal) =>
    match k with
    | .s v => v
    | .i v => pyFormatIntPlain v
    | .f _ => "float"
  let keysInOrder := (data.map Prod.fst).eraseDups
  let dupLines := keysInOrder.filterMap (fun k =>
    let snapshots := (data.filter (fun p => p.fst == k)).map Prod.snd
    if snapshots.length > 1 then
      some (keyStr k ++ ": "
        ++ String.intercalate ", " (snapshots.map (fun sn =>
          "line " ++ toString sn.lineNum ++ " index "
            ++ toString (sn.startIndex - sn.lineStart))))
    else Option.none)
  let dupStr := String.intercalate "\n" dupLines
  let reason :=
    "Sled map starting on line " ++ toString startLineNum ++ " at index "
      ++ toString startIndexWithinLine ++ " contains duplicate keys."
  { errorMessage := reason ++ "\n" ++ dupStr,
    errorCategory := .DUPLICATE_MAP_KEY, reason := reason,
    startLineNum := startLineNum }

/-- `Parser._make_invalid_sled_error` with its default-argument handling,
its two `ValueError` validations, and the delegation to
`make_short_parse_error` on the current line. -/
def mkInvalidSledError (reason : String) (category : SledErrorCategory)
    (startIndexOpt endIndexOpt lineStartOpt lineNumOpt : Option Nat) :
    PM SledError := do
  let s ← get
  let startIndex := startIndexOpt.getD s.index
  let endIndex := endIndexOpt.getD (startIndex + 1)
  let lineStart := lineStartOpt.getD s.lineStart
  let lineNum := lineNumOpt.getD s.lineNum
  if !(lineStart ≤ startIndex && startIndex < endIndex
        && endIndex ≤ s.text.length + 1) then
    throw (.valueError
      ("At least one invalid index given when specifying the location "
        ++ "of the invalid Sled input."))
  if (listFindInRange s.text '\n' startIndex (endIndex - 1)).isSome then
    throw (.valueError
      ("The invalid substring specified should not contain any line "
        ++ "separators except as the last character."))
  let lineEnd := findLineEnd s.text lineStart
  let line ← getRange lineStart lineEnd
  match makeShortParseError reason category line lineNum
      (startIndex - lineStart) (endIndex - lineStart) with
  | .ok e => pure e
  | .error exc => throw exc

/-- Raise an `InvalidSledError` with all defaults (category Syntax, span at
the cursor). -/
def throwInvalid {α : Type} (reason : String) : PM α := do
  let e ← mkInvalidSledError reason .SYNTAX Option.none Option.none
    Option.none Option.none
  throw (.sled e)

/-- Raise an `InvalidSledError` with an explicit span (category Syntax). -/
def throwInvalidAt {α : Type} (reason : String) (si ei : Option Nat) : PM α := do
  let e ← mkInvalidSledError reason .SYNTAX si ei Option.none Option.none
  throw (.sled e)

/-- Raise an `InvalidSledError` with every argument explicit. -/
def throwInvalidFull {α : Type} (reason : String) (category : SledErrorCategory)
    (si ei ls ln : Option Nat) : PM α := do
  let e ← mkInvalidSledError reason category si ei ls ln
  throw (.sled e)

/-! ## Whitespace, comments and delimiters (`_parser.py` lines 309-399) -/

/-- `Parser._consume_default_line_separators`: consume every consecutive
line feed, updating the line number and the line start. -/
def consumeDefaultLineSeparators : PM (List Char) := do
  let c ← peek
  if !(c == some '\n') then
    if (← isAtEnd) then pure []
    else
      throwInvalid ("Expected " ++ pyRepr (some '\n') ++ ", but got "
        ++ pyRepr c ++ ".")
  else do
    let startIndex ← curIndex
    advanceWhile (← loopFuel) (fun x => x == some '\n')
    let idx ← curIndex
    modify (fun s =>
      { s with lineNum := s.lineNum + (idx - startIndex), lineStart := idx })
    getRange startIndex idx

/-- `Parser._parse_comment`: `#` through end of line (content may not hold
control characters other than tab), then the following line separators. -/
def parseComment : PM (List Char) := do
  let c ← peek
  if !(c == some '#') then
    throwInvalid ("Expected comment to start with '#', but got "
      ++ pyRepr c ++ ".")
  let contentStart := (← curIndex) + 1
  advanceWhile (← loopFuel) (fun x => !(memCommentDisallowed x))
  let content ← getRange contentStart (← curIndex)
  if !(← isAtEnd) then
    let _ ← consumeDefaultLineSeparators
    pure ()
  pure content

/-- The loop of `Parser._multi_line_consume_optional`. -/
def multiLineConsumeLoop : Nat → (Option Char → Bool) → PM Unit
  | 0, _ => throw .outOfFuel
  | fuel + 1, horizontalSet => do
    let c ← peek
    if c == some '\n' then
      let _ ← consumeDefaultLineSeparators
      multiLineConsumeLoop fuel horizontalSet
    else if c == some '#' then
      let _ ← parseComment
      multiLineConsumeLoop fuel horizontalSet
    else if horizontalSet c then
      advanceWhile (← loopFuel) horizontalSet
      multiLineConsumeLoop fuel horizontalSet
    else
      pure ()

/-- `Parser._multi_line_consume_optional`: consume line separators,
comments and the given horizontal set, returning the consumed range. -/
def multiLineConsumeOptional (horizontalSet : Option Char → Bool) :
    PM (List Char) := do
  let startIndex ← curIndex
  multiLineConsumeLoop (← loopFuel) horizontalSet
  getRange startIndex (← curIndex)

/-- `Parser._consume_optional_ws`. -/
def consumeOptionalWs : PM (List Char) :=
  multiLineConsumeOptional (fun c =>
    match c with
    | some x => horizontalSpaceChar x
    | Option.none => false)

/-- `Parser._consume_optional_ws_or_delimiters`. -/
def consumeOptionalWsOrDelimiters : PM (List Char) :=
  multiLineConsumeOptional (fun c =>
    match c with
    | some x => delimiterOrHorizontalSpaceChar x
    | Option.none => false)

/-! ## Number parsing (`_parser.py` lines 827-1013) -/

/-- The shared reason string `_INVALID_NUMBER_COEFFICIENT_ERROR_REASON`. -/
def invalidNumberCoefficientReason : String :=
  "Invalid number. Expected at least 1 digit excluding any exponent."

/-- `Parser._parse_optional_sign`: skip leading digit separators, then
consume a sign if present (returned as a string of length at most one). -/
def parseOptionalSign : PM (List Char) := do
  if (← peek) == some '_' then
    advanceWhile (← loopFuel) (fun x => x == some '_')
  let c ← peek
  match c with
  | some ch =>
    if ch == '+' || ch == '-' then do
      advance
      pure [ch]
    else pure []
  | Option.none => pure []

/-- `Parser._consume_optional_digits`. -/
def consumeOptionalDigits : PM (List Char) := do
  let startIndex ← curIndex
  if memOptionalDigit (← peek) then
    advanceWhile (← loopFuel) memOptionalDigit
  getRange startIndex (← curIndex)

/-- `Parser._consume_exponent`. -/
def consumeExponent : PM (List Char) := do
  let p ← peek
  if !(memExponentPrefix p) then
    throwInvalid ("Invalid exponent. Must start with 'e' or 'E', but got "
      ++ pyRepr p ++ ".")
  let exponentPrefix :=
    match p with
    | some ch => [ch]
    | Option.none => []
  advance
  let signStr ← parseOptionalSign
  let exponentDigitStr := removeDigitSeparator (← consumeOptionalDigits)
  if exponentDigitStr.length > 0 then
    pure (exponentPrefix ++ signStr ++ exponentDigitStr)
  else
    throwInvalid ("Invalid exponent. Expected at least 1 digit in the "
      ++ "exponent (after '" ++ String.mk (exponentPrefix ++ signStr) ++ "').")

/-- Python's built-in `float()` on the normalized literal strings the parser
assembles (optional sign, digits, optional `.digits`, optional exponent).
Modelled symbolically: the literal is kept as the `finite` payload.  The
overflow of extreme exponents to `inf` (and the impossibility of `nan`) is
not modelled; no claim below depends on evaluating a finite float literal. -/
def pyFloatOfLiteral (s : List Char) : PyFloat :=
  .finite (String.mk s)

/-- Rendering of a float in an error message (only reachable for the
keyword values in `_evaluate_float_excl_keyword`). -/
def pyFloatStr : PyFloat → String
  | .nan => "nan"
  | .inf => "inf"
  | .ninf => "-inf"
  | .finite lit => lit

/-- `Parser._evaluate_float_excl_keyword`: convert, then reject a result
that is NaN or infinite with a `NUMBER_RANGE` error.  (The Python
`try/except` around `float()` cannot fire on the literals the parser
assembles, and the symbolic `pyFloatOfLiteral` never fails.) -/
def evaluateFloatExclKeyword (s : List Char) (snapshot : ParseSnapshot) :
    PM PyFloat := do
  let evaluation := pyFloatOfLiteral s
  if pyIsInf evaluation || pyIsNan evaluation then
    throwInvalidFull
      ("Invalid float. Expected a non-keyword value but Python's built-in "
        ++ "converted input to " ++ pyFloatStr evaluation ++ ": "
        ++ String.mk s)
      .NUMBER_RANGE (some snapshot.startIndex) (some snapshot.endIndex)
      (some snapshot.lineStart) (some snapshot.lineNum)
  else
    pure evaluation

/-- `Parser._parse_number_excl_keyword`: an `integer` (validated against
the 64-bit bounds) or a `float` (validated not to be a keyword value). -/
def parseNumberExclKeyword : PM (PyKeyVal × ParseSnapshot) := do
  let startIndex ← curIndex
  let signStr ← parseOptionalSign
  let coefficientStartIndex ← curIndex
  let standardizedIntegralStr := removeDigitSeparator (← consumeOptionalDigits)
  let c ← peek
  if !(memDecimalMark c) then
    -- Decimal mark not encountered
    if standardizedIntegralStr.length == 0 then
      throwInvalidAt invalidNumberCoefficientReason
        (some coefficientStartIndex) (some (← curIndex))
    else if memExponentPrefix c then
      -- float: no decimal, has exponent
      let exponentStr ← consumeExponent
      let s ← get
      let parseSnapshot : ParseSnapshot :=
        { startIndex := startIndex, endIndex := s.index,
          lineNum := s.lineNum, lineStart := s.lineStart,
          sledType := some .FLOAT }
      let evaluation ← evaluateFloatExclKeyword
        (signStr ++ standardizedIntegralStr ++ exponentStr) parseSnapshot
      pure (.f evaluation, parseSnapshot)
    else
      -- integer: no decimal, no exponent
      let s ← get
      let parseSnapshot : ParseSnapshot :=
        { startIndex := startIndex, endIndex := s.index,
          lineNum := s.lineNum, lineStart := s.lineStart,
          sledType := some .INTEGER }
      let integerStr := signStr ++ standardizedIntegralStr
      let evaluation := pyIntOfString integerStr
      if evaluation < SLED_INTEGER_MIN || SLED_INTEGER_MAX < evaluation then
        throwInvalidFull
          ("Invalid integer. Does not fall within allowed values for "
            ++ "Sled integer (overflow): " ++ String.mk integerStr)
          .NUMBER_RANGE (some startIndex) (some s.index)
          Option.none Option.none
      else
        pure (.i evaluation, parseSnapshot)
  else do
    -- Number contains a decimal mark; consume mantissa
    advance
    let standardizedMantissaStr := removeDigitSeparator (← consumeOptionalDigits)
    if standardizedIntegralStr.length == 0
        && standardizedMantissaStr.length == 0 then
      throwInvalidAt invalidNumberCoefficientReason
        (some coefficientStartIndex) (some (← curIndex))
    else do
      -- Optionally consume exponent
      let exponentStr ←
        if memExponentPrefix (← peek) then consumeExponent
        else pure []
      let s ← get
      let parseSnapshot : ParseSnapshot :=
        { startIndex := startIndex, endIndex := s.index,
          lineNum := s.lineNum, lineStart := s.lineStart,
          sledType := some .FLOAT }
      let floatStr := signStr ++ standardizedIntegralStr
        ++ '.' :: standardizedMantissaStr ++ exponentStr
      let evaluation ← evaluateFloatExclKeyword floatStr parseSnapshot
      pure (.f evaluation, parseSnapshot)

/-! ## Quotes and escape sequences (`_parser.py` lines 1015-1151) -/

/-- `SIMPLE_ESCAPE_EVALUATION` from `spec.py`. -/
def simpleEscapeEvaluation : Char → Option Char
  | '\\' => some '\\'
  | '"' => some '"'
  | '\'' => some '\''
  | 'n' => some '\n'
  | 'r' => some '\r'
  | 't' => some '\t'
  | _ => Option.none

/-- `Parser._parse_unicode_escape_content`: `\u{HEX...}` after the `\u`
has been consumed. -/
def parseUnicodeEscapeContent : PM String := do
  let c ← next
  if !(c == some '\x7b') then
    throwInvalid ("Expected '\x7b' after \"\\u\", but got "
      ++ pyRepr (← peek) ++ ".")
  let contentStartIndex := (← curIndex) + 1
  let s ← get
  match listFindFrom s.text '\x7d' contentStartIndex with
  | Option.none =>
    -- Report first point of failure
    advanceWhile (← loopFuel) memHexDigit
    if (← isAtEnd) then
      throwInvalid ("Invalid Unicode escape sequence. Reached end of input "
        ++ "without finding '\x7d' to end escape sequence for Unicode "
        ++ "code point.")
    else
      throwInvalid ("Invalid Unicode escape sequence. Expected only "
        ++ "hexadecimal, but found " ++ pyRepr (← peek) ++ ".")
  | some contentEndIndex => do
    let codePointStr ← getRange contentStartIndex contentEndIndex
    if !(codePointStr.all (fun ch => hexDigitChar ch)) then
      advanceWhile (← loopFuel) memHexDigit
      throwInvalid ("Invalid Unicode escape sequence. Expected only "
        ++ "hexadecimal between '\x7b' and '\x7d', but found "
        ++ pyRepr (← peek) ++ ".")
    else do
      modify (fun st => { st with index := contentEndIndex + 1 })
      match pyIntHex codePointStr with
      | .error exc => throw exc
      | .ok n =>
        match pyChr n with
        | .error exc => throw exc
        | .ok ch => pure (String.mk [ch])

/-- `Parser._parse_escape_sequence`. -/
def parseEscapeSequence : PM String := do
  if !((← peek) == some '\\') then
    throwInvalid ("Invalid escape sequence. Expected '\\' to start the "
      ++ "escape sequence, but got " ++ pyRepr (← peek) ++ ".")
  let c ← next
  match c with
  | some ch =>
    match simpleEscapeEvaluation ch with
    | some evaluation => do
      advance
      pure (String.mk [evaluation])
    | Option.none =>
      if ch == 'u' then parseUnicodeEscapeContent
      else do
        let idx ← curIndex
        throwInvalidAt
          ("Invalid escape sequence. No escape sequence has the escape "
            ++ "character followed by " ++ pyRepr c ++ ".")
          (some (idx - 1)) (some (idx + 1))
  | Option.none => do
    let idx ← curIndex
    throwInvalidAt
      ("Invalid escape sequence. No escape sequence has the escape "
        ++ "character followed by " ++ pyRepr c ++ ".")
      (some (idx - 1)) (some (idx + 1))

/-- The piece-collecting loop of `Parser._parse_quote`. -/
def parseQuoteLoop : Nat → Char → List (List Char) → PM (List (List Char))
  | 0, _, _ => throw .outOfFuel
  | fuel + 1, quoteMark, pieces => do
    let restrictedSymbols := fun (x : Option Char) =>
      memRestrictedQuote x || x == some quoteMark
    let pieceStartIndex ← curIndex
    if !(restrictedSymbols (← peek)) then
      advanceWhile (← loopFuel) (fun x => !(restrictedSymbols x))
    let piece ← getRange pieceStartIndex (← curIndex)
    let pieces := pieces ++ [piece]
    let c ← peek
    if c == some quoteMark then do
      advance
      pure pieces
    else if c == some '\\' then do
      let escaped ← parseEscapeSequence
      parseQuoteLoop fuel quoteMark (pieces ++ [escaped.data])
    else if c == Option.none then
      throwInvalid ("Reached end of file without finding "
        ++ pyRepr (some quoteMark) ++ " to end quote.")
    else
      throwInvalid ("Invalid quote. Found disallowed symbol "
        ++ pyRepr c ++ ".")

/-- `Parser._parse_quote`. -/
def parseQuote : PM (String × ParseSnapshot) := do
  let qm ← peek
  match qm with
  | some quoteMark =>
    if !(quoteMark == '\'' || quoteMark == '"') then
      throwInvalid ("Expected a quote mark (single or double) to start "
        ++ "quote, but got " ++ pyRepr qm ++ ". ")
    else do
      let startIndex ← curIndex
      advance
      let pieces ← parseQuoteLoop (← loopFuel) quoteMark []
      let s ← get
      let parseSnapshot : ParseSnapshot :=
        { startIndex := startIndex, endIndex := s.index,
          lineNum := s.lineNum, lineStart := s.lineStart,
          sledType := some .STRING }
      pure (String.mk pieces.flatten, parseSnapshot)
  | Option.none =>
    throwInvalid ("Expected a quote mark (single or double) to start "
      ++ "quote, but got " ++ pyRepr qm ++ ". ")

/-! ## Identities, keyword names, hex and concat
(`_parser.py` lines 637-825 and 1153-1182) -/

/-- `Parser._parse_identity`. -/
def parseIdentity : PM (PyKeyVal × ParseSnapshot) := do
  let c ← peek
  if memIdentityDisallowedStart c then
    throwInvalid ("Invalid identity. Cannot start with " ++ pyRepr c ++ ".")
  let startIndex ← curIndex
  advanceWhile (← loopFuel) (fun x => !(memIdentityDisallowed x))
  let s ← get
  let parseSnapshot : ParseSnapshot :=
    { startIndex := startIndex, endIndex := s.index,
      lineNum := s.lineNum, lineStart := s.lineStart,
      sledType := some .STRING }
  let content ← getRange startIndex s.index
  pure (.s (String.mk content), parseSnapshot)

/-- `Parser._parse_keyword_name`. -/
def parseKeywordName : PM (String × ParseSnapshot) := do
  let startIndex ← curIndex
  if memKeywordChar (← peek) then
    advanceWhile (← loopFuel) memKeywordChar
  let s ← get
  let name ← getRange startIndex s.index
  let keywordSnapshot : ParseSnapshot :=
    { startIndex := startIndex, endIndex := s.index,
      lineStart := s.lineStart, lineNum := s.lineNum,
      sledType := Option.none }
  pure (String.mk name, keywordSnapshot)

/-- `Parser._parse_hex_content`: locate the closing mark, validate the
allowed characters, strip the whitespace (keeping digit separators, which
then count toward the evenness check and reach `bytes.fromhex`), and
decode. -/
def parseHexContent : PM (List Nat) := do
  let contentStartIndex ← curIndex
  let st ← get
  match listFindFrom st.text ')' contentStartIndex with
  | Option.none => do
    -- Report first point of failure
    advanceWhile (← loopFuel) memHexChar
    if (← isAtEnd) then
      throwInvalid ("Invalid hex. Reached end of input without finding "
        ++ "')' to end hex.")
    else
      throwInvalid ("Invalid hex. Expected only '_', hexadecimal and ws "
        ++ "between '(' and ')', but found " ++ pyRepr (← peek) ++ ".")
  | some hexCloseIndex => do
    let contentStr ← getRange contentStartIndex hexCloseIndex
    if !(contentStr.all (fun ch => memHexChar (some ch))) then
      advanceWhile (← loopFuel) memHexChar
      throwInvalid ("Invalid hex. Expected only '_', hexadecimal and ws "
        ++ "between '(' and ')', but found " ++ pyRepr (← peek) ++ ".")
    else do
      -- Filter for only the characters of HEX_DIGIT_SET
      let filtered := contentStr.filter (fun ch => hexDigitChar ch)
      if !(filtered.length % 2 == 0) then
        throwInvalidAt
          ("Invalid hex. Expected an even number of hexadecimal digits "
            ++ "for full bytes of data, but got "
            ++ toString filtered.length ++ " hexadecimal digits.")
          Option.none (some hexCloseIndex)
      else do
        modify (fun s => { s with index := hexCloseIndex })
        match pyBytesFromHex filtered with
        | .ok bs => pure bs
        | .error exc => throw exc

/-- The segment loop of `Parser._parse_concat_content`. -/
def parseConcatLoop : Nat → List String → PM (List String)
  | 0, _ => throw .outOfFuel
  | fuel + 1, content => do
    if !(memQuoteMark (← peek)) then
      throwInvalid ("Expected either a quote mark (single or double) to "
        ++ "start a quote, or ')' to end the concat, but got "
        ++ pyRepr (← peek) ++ ".")
    let (quote, _) ← parseQuote
    let content := content ++ [quote]
    let ws ← consumeOptionalWsOrDelimiters
    if (← peek) == some ')' then
      pure content
    else if !(wsContainsDelimiter ws) then
      throwInvalid ("Expected either ')' to end the concat, or a delimiter "
        ++ "(';' or a line separator) before the next segment, but got "
        ++ pyRepr (← peek) ++ ".")
    else
      parseConcatLoop fuel content

/-- `Parser._parse_concat_content`. -/
def parseConcatContent : PM String := do
  let _ ← consumeOptionalWsOrDelimiters
  if (← peek) == some ')' then pure ""
  else do
    let content ← parseConcatLoop (← loopFuel) []
    pure (String.join content)

/-- `Parser._handle_concat_after_keyword`. -/
def handleConcatAfterKeyword (keywordSnapshot : ParseSnapshot) :
    PM (String × ParseSnapshot) := do
  let _ ← consumeOptionalWs
  if !((← peek) == some '(') then
    throwInvalid ("Expected '(' to start concat, but got "
      ++ pyRepr (← peek) ++ ".")
  advance
  let content ← parseConcatContent
  if (← peek) == some ')' then do
    advance
    let idx ← curIndex
    pure (content,
      { startIndex := keywordSnapshot.startIndex, endIndex := idx,
        lineNum := keywordSnapshot.lineNum,
        lineStart := keywordSnapshot.lineStart,
        sledType := some .STRING })
  else
    throwInvalid ("Expected ')' to end concat, but got "
      ++ pyRepr (← peek) ++ ".")

/-- `KEYWORD_LITERALS` from `_keyword_literal.py`: name to evaluation. -/
def keywordLiteralEval : String → Option Entity
  | "nan" => some (.float .nan)
  | "inf" => some (.float .inf)
  | "ninf" => some (.float .ninf)
  | "true" => some (.bool true)
  | "false" => some (.bool false)
  | "nil" => some Entity.none
  | _ => Option.none

/-- `Parser._parse_keyword`: keyword literals, `@hex(...)`, `@concat(...)`,
otherwise an invalid-keyword error. -/
def parseKeyword : PM (Entity × ParseSnapshot) := do
  if !((← peek) == some '@') then
    throwInvalid ("Invalid keyword. Expected keyword to be prefixed by "
      ++ "'@', but got " ++ pyRepr (← peek) ++ ".")
  let startIndex ← curIndex
  advance
  let (keywordName, keywordSnapshot) ← parseKeywordName
  match keywordLiteralEval keywordName with
  | some evaluation => pure (evaluation, keywordSnapshot)
  | Option.none =>
    if keywordName == "hex" then do
      let _ ← consumeOptionalWs
      if !((← peek) == some '(') then
        throwInvalid ("Expected '(' to start hex, but got "
          ++ pyRepr (← peek) ++ ".")
      advance
      let content ← parseHexContent
      if (← peek) == some ')' then do
        advance
        let idx ← curIndex
        pure (.bytes content,
          { startIndex := keywordSnapshot.startIndex, endIndex := idx,
            lineNum := keywordSnapshot.lineNum,
            lineStart := keywordSnapshot.lineStart,
            sledType := some .HEX })
      else
        throwInvalid ("Expected ')' to end hex, but got "
          ++ pyRepr (← peek) ++ ".")
    else if keywordName == "concat" then do
      let (content, snapshot) ← handleConcatAfterKeyword keywordSnapshot
      pure (.str content, snapshot)
    else do
      let s ← get
      throwInvalidFull ("Invalid keyword \"@" ++ keywordName ++ "\".")
        .SYNTAX (some startIndex) (some s.index)
        (some s.lineStart) (some s.lineNum)

/-! ## Map keys, strings in key position, integers in key position
(`_parser.py` lines 567-635) -/

/-- `Parser._parse_map_key`. -/
def parseMapKey : PM (PyKeyVal × ParseSnapshot) := do
  let startIndex ← curIndex
  let c ← peek
  if c == some '@' then do
    advance
    let (keywordName, keywordSnapshot) ← parseKeywordName
    if !(keywordName == "concat") then do
      -- The source constructs this error but does not raise it.
      let range ← getRange startIndex (← curIndex)
      let _ ← mkInvalidSledError
        ("Expected a map key, but got a non-concat keyword: "
          ++ String.mk range)
        .SYNTAX (some startIndex) (some (← curIndex)) Option.none Option.none
      pure ()
    let (content, snapshot) ← handleConcatAfterKeyword keywordSnapshot
    pure (.s content, snapshot)
  else if
      (match c with
        | some ch => numberStartChar ch
        | Option.none => false) then
    parseNumberExclKeyword
  else if memQuoteMark c then do
    let (quote, snapshot) ← parseQuote
    pure (.s quote, snapshot)
  else if !(memIdentityDisallowedStart c) then
    parseIdentity
  else
    throwInvalid ("Invalid map key. No map key starts with "
      ++ pyRepr c ++ ".")

/-- `Parser._parse_string`. -/
def parseString : PM (PyKeyVal × ParseSnapshot) := do
  let startIndex ← curIndex
  let c ← peek
  if c == some '@' then do
    advance
    let (keywordName, keywordSnapshot) ← parseKeywordName
    if !(keywordName == "concat") then do
      -- The source constructs this error but does not raise it.
      let range ← getRange startIndex (← curIndex)
      let _ ← mkInvalidSledError
        ("Expected a string, but got a non-concat keyword: "
          ++ String.mk range)
        .SYNTAX (some startIndex) (some (← curIndex)) Option.none Option.none
      pure ()
    let (content, snapshot) ← handleConcatAfterKeyword keywordSnapshot
    pure (.s content, snapshot)
  else if memQuoteMark c then do
    let (quote, snapshot) ← parseQuote
    pure (.s quote, snapshot)
  else if !(memIdentityDisallowedStart c) then
    parseIdentity
  else
    throwInvalid ("Invalid string. No string starts with " ++ pyRepr c ++ ".")

/-- `Parser._parse_integer` (`_parser.py` lines 625-635).  Its first
statement reads `self._start_index`, an attribute that is never assigned
anywhere in the class (the local in every other method is a plain
`start_index` variable), so in Python the call raises `AttributeError`
before consuming any input.  The remainder of the method body is
unreachable. -/
def parseInteger : PM (PyKeyVal × ParseSnapshot) :=
  throw (.attributeError "_start_index")

/-! ## Containers and the document (`_parser.py` lines 146-181, 401-565)

The recursive descent is tied through the single fueled function
`parseEntity`; the map/list helpers receive the one-level-down entity
parser as an argument, so every recursion is structural. -/

/-- The bound method that `_handle_map_first_key` selects for every
subsequent key of the map: `Parser._parse_string` or
`Parser._parse_integer`. -/
inductive KeyParseFunc where
  | string
  | integer
deriving DecidableEq, Repr

/-- Invoke the selected key-parse method. -/
def runKeyParseFunc : KeyParseFunc → PM (PyKeyVal × ParseSnapshot)
  | .string => parseString
  | .integer => parseInteger

/-- `Parser._handle_map_first_key`. -/
def handleMapFirstKey (keyType : Option SledType) :
    PM (PyKeyVal × ParseSnapshot × KeyParseFunc) := do
  match keyType with
  | Option.none => do
    -- Determine key_parse_func based on first key
    let (key, keySnapshot) ← parseMapKey
    if keySnapshot.sledType == some .STRING then
      pure (key, keySnapshot, .string)
    else if keySnapshot.sledType == some .INTEGER then
      pure (key, keySnapshot, .integer)
    else
      throwInvalidFull
        ("Expected map key to be either a string or integer, but got: "
          ++ sledTypeStr keySnapshot.sledType)
        .MAP_KEY_TYPE (some keySnapshot.startIndex)
        (some keySnapshot.endIndex) (some keySnapshot.lineStart)
        (some keySnapshot.lineNum)
  | some .STRING => do
    let (key, keySnapshot) ← parseString
    pure (key, keySnapshot, .string)
  | some .INTEGER => do
    let (key, keySnapshot) ← parseInteger
    pure (key, keySnapshot, .integer)
  | some other =>
    throw (.valueError
      ("key_type must be SledType.STRING, SledType.INTEGER, or None, "
        ++ "but got: " ++ sledTypeStr (some other)))

/-- `Parser._parse_map_pair_after_key`, with the entity parser passed in. -/
def parseMapPairAfterKey (parseEnt : PM Entity) : PM Entity := do
  let _ ← consumeOptionalWs
  if !((← peek) == some '=') then
    throwInvalid ("Expected '=' between key and value, but got "
      ++ pyRepr (← peek) ++ ".")
  advance
  let _ ← consumeOptionalWs
  parseEnt

/-- The pair-collecting loop of `Parser._parse_map_content`. -/
def mapPairsLoop (parseEnt : PM Entity) :
    Nat → KeyParseFunc → List (PyKeyVal × ParseSnapshot × Entity) →
    PM (List (PyKeyVal × ParseSnapshot × Entity))
  | 0, _, _ => throw .outOfFuel
  | fuel + 1, keyParseFunc, data => do
    let ws ← consumeOptionalWsOrDelimiters
    let c ← peek
    if c == some '\x7d' || c == Option.none then
      pure data
    else if !(wsContainsDelimiter ws) then
      throwInvalid ("Expected either the end of the map, or a delimiter "
        ++ "(';' or a line separator) before the next key-value pair, "
        ++ "but got " ++ pyRepr c ++ ".")
    else do
      let (key, keySnapshot) ← runKeyParseFunc keyParseFunc
      let v ← parseMapPairAfterKey parseEnt
      mapPairsLoop parseEnt fuel keyParseFunc (data ++ [(key, keySnapshot, v)])

/-- Does any key occur more than once?  (The source walks the list with a
`seen_keys` set and raises at the first repeat, passing the whole list to
the aggregating error constructor; the raise happens exactly when some key
repeats.) -/
def hasDuplicateKey (keys : List PyKeyVal) : Bool :=
  keys.any (fun k => 1 < keys.count k)

/-- `Parser._parse_map_content`, with the entity parser passed in. -/
def parseMapContent (parseEnt : PM Entity) (keyType : Option SledType) :
    PM (List (PyKeyVal × Entity)) := do
  let st ← get
  let startIndexWithinLine := st.index - st.lineStart
  let startLineNum := st.lineNum
  let _ ← consumeOptionalWsOrDelimiters
  let c ← peek
  if c == some '\x7d' || c == Option.none then
    pure []
  else do
    let (key, keySnapshot, keyParseFunc) ← handleMapFirstKey keyType
    let firstValue ← parseMapPairAfterKey parseEnt
    let data ← mapPairsLoop parseEnt (← loopFuel) keyParseFunc
      [(key, keySnapshot, firstValue)]
    -- Validation: Check for duplicate keys.
    if hasDuplicateKey (data.map (fun t => t.fst)) then
      throw (.sled (makeDuplicateMapKeyError
        (data.map (fun t => (t.fst, t.snd.fst)))
        startLineNum startIndexWithinLine))
    else
      pure (data.map (fun t => (t.fst, t.snd.snd)))

/-- The element loop of `Parser._parse_list_content`. -/
def listContentLoop (parseEnt : PM Entity) :
    Nat → List Entity → PM (List Entity)
  | 0, _ => throw .outOfFuel
  | fuel + 1, content => do
    let e ← parseEnt
    let content := content ++ [e]
    let ws ← consumeOptionalWsOrDelimiters
    if (← peek) == some ']' then
      pure content
    else if !(wsContainsDelimiter ws) then
      throwInvalid ("Expected either ']' to end the list, or a delimiter "
        ++ "(';' or a line separator) before the next entity, but got "
        ++ pyRepr (← peek) ++ ".")
    else
      listContentLoop parseEnt fuel content

/-- `Parser._parse_list_content`, with the entity parser passed in. -/
def parseListContent (parseEnt : PM Entity) : PM (List Entity) := do
  let _ ← consumeOptionalWsOrDelimiters
  if (← peek) == some ']' then pure []
  else listContentLoop parseEnt (← loopFuel) []

/-- `Parser._parse_entity` (`_parser.py` lines 403-444).  The fourth branch
transcribes the source's `elif c == NUMBER_START_SET:`, an equality test
between a one-character string and a frozenset (`pyEqCharFrozenset`), which
is always false in Python, so the number branch is unreachable and a digit
in value position falls through to the final error. -/
def parseEntity : Nat → PM Entity
  | 0 => throw .outOfFuel
  | fuel + 1 => do
    let c ← peek
    if c == some '\x7b' then do
      advance
      let content ← parseMapContent (parseEntity fuel) Option.none
      if (← peek) == some '\x7d' then do
        advance
        pure (.dict content)
      else
        throwInvalid ("Expected '\x7d' to end map, but got "
          ++ pyRepr (← peek) ++ ".")
    else if c == some '[' then do
      advance
      let content ← parseListContent (parseEntity fuel)
      if (← peek) == some ']' then do
        advance
        pure (.list content)
      else
        throwInvalid ("Expected ']' to end list, but got "
          ++ pyRepr (← peek) ++ ".")
    else if c == some '@' then do
      let (keywordEvaluation, _) ← parseKeyword
      pure keywordEvaluation
    else if pyEqCharFrozenset c then do
      -- Unreachable: the source compares `c == NUMBER_START_SET`.
      let (numberEvaluation, _) ← parseNumberExclKeyword
      pure numberEvaluation.toEntity
    else if memQuoteMark c then do
      let (quoteEvaluation, _) ← parseQuote
      pure (.str quoteEvaluation)
    else if !(memIdentityDisallowedStart c) then do
      let (identityEvaluation, _) ← parseIdentity
      pure identityEvaluation.toEntity
    else
      throwInvalid ("Invalid entity. No entity starts with "
        ++ pyRepr c ++ ".")

/-- `Parser._parse_document`. -/
def parseDocument (fuel : Nat) : PM (List (PyKeyVal × Entity)) := do
  let hasTopLevelBraces := (← peek) == some '\x7b'
  if hasTopLevelBraces then advance
  let evaluation ← parseMapContent (parseEntity fuel) (some .STRING)
  let _ ← consumeOptionalWsOrDelimiters
  if hasTopLevelBraces then
    if (← peek) == some '\x7d' then advance
    else
      throwInvalid ("Expected '\x7d' to end top-level map but got "
        ++ pyRepr (← peek) ++ ".")
  if (← isAtEnd) then pure evaluation
  else throwInvalid ("Sled input did not end where expected.")

/-- `from_sled` (and `Parser.__init__` plus `Parser.parse`): standardize the
line separators, then parse one document from the start.  The fuel bounds
only the nesting depth of `parseEntity` (every other loop carries its own
`loopFuel`), so one unit per remaining character is more than enough. -/
def fromSled (input : String) : Except PyExc (List (PyKeyVal × Entity)) :=
  let text := standardizeLineSeparator input.data
  let initial : PState :=
    { text := text, index := 0, lineNum := 1, lineStart := 0 }
  match (parseDocument (text.length + 1)).run initial with
  | .ok (evaluation, _) => .ok evaluation
  | .error exc => .error exc

/-! ## Result projections used by the theorems -/

/-- The category of the `SledError` an outcome raised, if any. -/
def excCategory {α : Type} : Except PyExc α → Option SledErrorCategory
  | .error (.sled e) => some e.errorCategory
  | _ => Option.none

/-- The reason sentence of the `SledError` an outcome raised, if any. -/
def excReason {α : Type} : Except PyExc α → Option String
  | .error (.sled e) => some e.reason
  | _ => Option.none

/-- The formatted message of the `SledError` an outcome raised, if any. -/
def excMessage {α : Type} : Except PyExc α → Option String
  | .error (.sled e) => some e.errorMessage
  | _ => Option.none

/-- The 1-based line number carried by the `SledError` an outcome raised. -/
def excLineNum {α : Type} : Except PyExc α → Option Nat
  | .error (.sled e) => some e.startLineNum
  | _ => Option.none

/-- Did the outcome raise an exception that is not a `SledError`
(and not the embedding's fuel artifact)? -/
def raisesNonSledExc {α : Type} : Except PyExc α → Bool
  | .error (.sled _) => false
  | .error .outOfFuel => false
  | .error _ => true
  | .ok _ => false

/-! ## Serializer configuration
(`_serializer_basic.py`, `_serializer.py`, `_serializer_mini.py`)

The configuration record carries the full option surface with the Python
defaults as field defaults.  The constructors' eager validations (indent
characters, recognised quote mark and line separator, hex line length
versus grouping) restrict which records the Python classes can be built
with; every configuration used below satisfies them. -/

/-- The serializer options, with `SledSerializer`'s defaults. -/
structure Config where
  indent : String := "  "
  useTopLevelBraces : Bool := false
  lineSeparator : String := "\n"
  alwaysQuote : Bool := false
  breakOnLineSeparator : Bool := true
  asciiOnly : Bool := false
  quoteMark : Char := '"'
  hexUpperCase : Bool := false
  hexHorizontalSeparator : String := "_"
  hexBytesPerSeparator : Int := -2
  hexLineLength : Int := 80
  decimalMark : Char := '.'
  exponentPrefix : Char := 'e'
  useThousandsSeparator : Bool := true

/-- The default configuration of both `SledSerializer()` and
`SledSerializerMini()` (the latter simply lacks the layout options). -/
def defaultConfig : Config := {}

/-- `LINE_SEPARATOR_ESCAPES[line_separator]` (a `KeyError`, re-raised as
`ValueError`, at construction time for anything else; the fallback below is
never consulted for a constructible configuration). -/
def lineSeparatorEscape (cfg : Config) : String :=
  if cfg.lineSeparator == "\r\n" then "\\r\\n"
  else if cfg.lineSeparator == "\r" then "\\r"
  else "\\n"

/-- `self._quote_mark_escape = SIMPLE_ESCAPE_SEQUENCES[quote_mark]`. -/
def quoteMarkEscape (cfg : Config) : List Char :=
  ['\\', cfg.quoteMark]

/-- `SledSerializer.__init__`:
`"" if hex_bytes_per_separator == 0 else hex_horizontal_separator`. -/
def effHexHorizontalSeparator (cfg : Config) : String :=
  if cfg.hexBytesPerSeparator == 0 then "" else cfg.hexHorizontalSeparator

/-- `SledSerializer.__init__`:
`0 if hex_horizontal_separator == "" else hex_bytes_per_separator`. -/
def effHexBytesPerSeparator (cfg : Config) : Int :=
  if cfg.hexHorizontalSeparator == "" then 0 else cfg.hexBytesPerSeparator

/-- The keyword lexeme of `KeywordLiteralSpec`: `KEYWORD_MARK + name`. -/
def keywordLexeme (name : String) : String :=
  "@" ++ name

/-! ## Models of Python built-ins used by the serializers -/

/-- `str.replace` for a single-character target. -/
def replaceChar (target : Char) (repl : List Char) : List Char → List Char
  | [] => []
  | c :: rest =>
    if c == target then repl ++ replaceChar target repl rest
    else c :: replaceChar target repl rest

/-- Group a digit list from the right in groups of `k`, processing the
reversed digits with a position counter. -/
def groupRevCount (k : Nat) : Nat → List Char → List Char
  | _, [] => []
  | i, c :: rest =>
    if i == k then '_' :: c :: groupRevCount k 1 rest
    else c :: groupRevCount k (i + 1) rest

/-- Python `f"{n:_X}"` for a natural number: uppercase hexadecimal digits
grouped in fours from the right by underscores. -/
def pyFormatHexUpperGrouped (n : Nat) : String :=
  String.mk (groupRevCount 4 0 ((Nat.toDigits 16 n).map Char.toUpper).reverse).reverse

/-- Chunks of `k` elements grouped from the right (the leftover group, if
any, is the leftmost). -/
def chunksFromRight (k : Nat) : List Nat → List (List Nat)
  | [] => []
  | c :: rest =>
    match chunksFromRight k rest with
    | [] => [[c]]
    | g :: gs => if g.length < k then (c :: g) :: gs else [c] :: g :: gs

/-- Chunks of `k` elements grouped from the left (the leftover group, if
any, is the rightmost). -/
def chunksFromLeft (k : Nat) (l : List Nat) : List (List Nat) :=
  ((chunksFromRight k l.reverse).map List.reverse).reverse

/-- Python `bytes.hex(sep, bytes_per_sep)`: lowercase digit pairs;
a positive `bytes_per_sep` groups counting from the right, a negative one
from the left, and `0` (or an empty separator) does not group. -/
def pyBytesHex (bs : List Nat) (sep : String) (bytesPerSep : Int) : String :=
  if sep == "" || bytesPerSep == 0 then
    String.join (bs.map hexByteLower)
  else
    let groups :=
      if bytesPerSep < 0 then chunksFromLeft bytesPerSep.natAbs bs
      else chunksFromRight bytesPerSep.natAbs bs
    String.intercalate sep
      (groups.map (fun g => String.join (g.map hexByteLower)))

/-- A Python expression that is either an actual `str` or the un-called
bound method `content.upper`, as produced by `_to_hex_content` in both
`_serializer_basic.py` (line 414) and `_serializer.py` (line 333), where
the source writes `content.upper` without the call parentheses. -/
inductive PyStr where
  | str (s : String)
  | boundMethodUpper (receiver : String)
deriving DecidableEq, Repr

/-- f-string interpolation (`str()`) of such a value.  For a bound method
Python renders `<built-in method upper of str object at 0x...>`; the
memory address is nondeterministic and is omitted here (no claim depends
on the rendering). -/
def pyStrInterp : PyStr → String
  | .str s => s
  | .boundMethodUpper _ => "<built-in method upper of str object>"

/-- `str.rjust`. -/
def rjust (l : List Char) (width : Nat) (c : Char) : List Char :=
  List.replicate (width - l.length) c ++ l

/-! ## `SledSerializerBasic` scalar encoders -/

/-- `SledSerializerBasic.validate_integer`: reject values outside the
signed 64-bit range with a `NUMBER_RANGE` `SledError`. -/
def validateInteger (n : Int) : Except PyExc Unit :=
  if n < SLED_INTEGER_MIN || SLED_INTEGER_MAX < n then
    let reason :=
      "Value cannot be represented by a Sled integer (overflow): "
        ++ pyFormatIntPlain n
    .error (.sled { errorMessage := reason, errorCategory := .NUMBER_RANGE,
                    reason := reason, startLineNum := 0 })
  else .ok ()

/-- `SledSerializerBasic.to_integer` (and `SledSerializer.to_integer`):
validate, then `f"{n:_d}"`. -/
def basicToInteger (n : Int) : Except PyExc String := do
  let _ ← validateInteger n
  pure (pyFormatIntThousands n)

/-- `SledSerializerMini.to_integer`: validate, then `f"{n:d}"`. -/
def miniToInteger (n : Int) : Except PyExc String := do
  let _ ← validateInteger n
  pure (pyFormatIntPlain n)

/-- `SledSerializerBasic.to_boolean`. -/
def toBoolean (b : Bool) : String :=
  if b then keywordLexeme "true" else keywordLexeme "false"

/-- Python `f"{x:_}"` / `f"{x}"` on a finite float.  Modelled symbolically
on the `finite` literal payload; no claim below formats a finite float.
The non-finite constructors are unreachable here (guarded by the
`isnan`/`isinf` tests in `to_float_custom`). -/
def pyFormatFiniteFloat : PyFloat → Bool → String
  | .finite lit, _ => lit
  | x, _ => pyFloatStr x

/-- `SledSerializerBasic.to_float_custom` (lines 437-466): NaN and the
infinities are emitted as their keyword lexemes before any numeric
formatting; finite values get the configured decimal mark and exponent
prefix substituted, and a forced `.0`-style suffix when the rendering
looks like an integer. -/
def toFloatCustom (cfg : Config) (x : PyFloat)
    (useThousandsSeparator : Bool) : String :=
  if pyIsNan x then keywordLexeme "nan"
  else if pyIsInf x then
    (if pyFloatLtZero x then keywordLexeme "ninf" else keywordLexeme "inf")
  else
    let output := pyFormatFiniteFloat x useThousandsSeparator
    let hasDecimalMark := output.data.contains '.'
    let output :=
      if hasDecimalMark && !(cfg.decimalMark == '.') then
        String.mk (replaceChar '.' [cfg.decimalMark] output.data)
      else output
    let hasExponent := output.data.contains 'e'
    let output :=
      if hasExponent && !(cfg.exponentPrefix == 'e') then
        String.mk (replaceChar 'e' [cfg.exponentPrefix] output.data)
      else output
    if !(hasDecimalMark || hasExponent) then
      output ++ String.mk [cfg.decimalMark] ++ "0"
    else output

/-- `SledSerializerBasic.to_float` / `SledSerializer.to_float`. -/
def canonToFloat (cfg : Config) (x : PyFloat) : String :=
  toFloatCustom cfg x cfg.useThousandsSeparator

/-- `SledSerializerMini.to_float`. -/
def miniToFloat (cfg : Config) (x : PyFloat) : String :=
  toFloatCustom cfg x false

/-- `SledSerializerBasic.to_unicode_escape`. -/
def toUnicodeEscape (c : Char) : String :=
  "\\u\x7b" ++ pyFormatHexUpperGrouped c.toNat ++ "\x7d"

/-- `SledSerializerBasic.escape_string`: escape the backslash, then the
active quote mark, then the named C0 escapes, then the remaining C0/DEL
characters as Unicode escapes, then (in ASCII-only mode) every non-ASCII
character.  The Python set-iteration stages replace distinct characters
whose replacements introduce none of the later targets, so a fixed
replacement order is equivalent. -/
def escapeString (cfg : Config) (s : String) : String :=
  let content := replaceChar '\\' ['\\', '\\'] s.data
  let content := replaceChar cfg.quoteMark (quoteMarkEscape cfg) content
  let content := replaceChar '\n' ['\\', 'n'] content
  let content := replaceChar '\r' ['\\', 'r'] content
  let content := replaceChar '\t' ['\\', 't'] content
  let content := content.flatMap (fun c =>
    if isC0ControlOrDel c then (toUnicodeEscape c).data else [c])
  let content :=
    if cfg.asciiOnly then
      content.flatMap (fun c =>
        if !(c.toNat < 128) then (toUnicodeEscape c).data else [c])
    else content
  String.mk content

/-- `SledSerializerBasic._try_to_identity` (lines 480-492): the or-chain of
disqualifications, returning the string itself only when it can stand as a
bare identity. -/
def tryToIdentity (cfg : Config) (s : String) : String :=
  if s == ""
      || cfg.alwaysQuote
      || memIdentityDisallowedStart s.data.head?
      || s.data.any identityDisallowedChar
      || s.data.any pyIsSpaceChar
      || (cfg.asciiOnly && !(s.data.all (fun c => c.toNat < 128))) then
    ""
  else s

/-- Enclose escaped content in the configured quote marks. -/
def quoteWrap (cfg : Config) (content : String) : String :=
  String.mk [cfg.quoteMark] ++ content ++ String.mk [cfg.quoteMark]

/-- `SledSerializerBasic.to_string` (identical to
`SledSerializerMini.to_string`): the empty quote for `""`, a bare identity
when `_try_to_identity` allows it, otherwise a quote around the escaped
content. -/
def basicToString (cfg : Config) (s : String) (_indent : String) : String :=
  if s == "" then String.mk [cfg.quoteMark, cfg.quoteMark]
  else
    let identity := tryToIdentity cfg s
    if !(identity == "") then identity
    else quoteWrap cfg (escapeString cfg s)

/-- `SledSerializer.to_string` (lines 384-417): as the basic form, except
that with `break_on_line_separator` a string containing the configured
line separator becomes a `@concat(...)` of per-line quoted segments. -/
def canonToString (cfg : Config) (s : String) (indent : String) : String :=
  if s == "" then String.mk [cfg.quoteMark, cfg.quoteMark]
  else
    let identity := tryToIdentity cfg s
    if !(identity == "") then identity
    else
      let content := escapeString cfg s
      if !cfg.breakOnLineSeparator then quoteWrap cfg content
      else
        let linesWoSeparator := content.splitOn (lineSeparatorEscape cfg)
        if linesWoSeparator.length == 1 then quoteWrap cfg content
        else
          let lines :=
            (linesWoSeparator.dropLast.map
              (fun line => line ++ lineSeparatorEscape cfg))
              ++ [linesWoSeparator.getLastD ""]
          let lastLineSeparator := cfg.lineSeparator ++ indent
          let segmentSeparator := lastLineSeparator ++ cfg.indent
          let segmentsStr := String.join (lines.map
            (fun line => segmentSeparator ++ quoteWrap cfg line))
          keywordLexeme "concat" ++ "(" ++ segmentsStr
            ++ lastLineSeparator ++ ")"

/-! ## Hex encoders -/

/-- `SledSerializerBasic._to_hex_content` (lines 412-414): `b.hex()`, then
`content.upper if self._hex_upper_case else content` — the bound method is
returned, not its application. -/
def basicToHexContent (hexUpperCase : Bool) (b : List Nat) : PyStr :=
  let content := String.join (b.map hexByteLower)
  if hexUpperCase then .boundMethodUpper content else .str content

/-- `SledSerializer._to_hex_content` (lines 329-333): as the basic variant
but grouping with the derived separator settings, and with the same
missing call parentheses on `content.upper`. -/
def canonToHexContent (cfg : Config) (b : List Nat) : PyStr :=
  let content := pyBytesHex b (effHexHorizontalSeparator cfg)
    (effHexBytesPerSeparator cfg)
  if cfg.hexUpperCase then .boundMethodUpper content else .str content

/-- `SledSerializerBasic.to_hex` (also inherited by `SledSerializerMini`):
interpolate the content between `@hex(` and `)`. -/
def basicToHex (cfg : Config) (b : List Nat) : String :=
  keywordLexeme "hex" ++ "(" ++ pyStrInterp (basicToHexContent cfg.hexUpperCase b) ++ ")"

/-- The slicing loop of `SledSerializer._fold_hex_lines`: take
`lineLength`-character lines, stepping by `lineLengthInContent`.  The fuel
covers every terminating Python execution; a non-positive step would not
terminate in Python either (prevented by the constructor validation). -/
def sliceHexLines : Nat → List Char → Nat → Int → Int → List (List Char)
  | 0, _, _, _, _ => []
  | fuel + 1, content, start, lineLength, lineLengthInContent =>
    if start < content.length then
      ((content.drop start).take lineLength.toNat)
        :: sliceHexLines fuel content (start + lineLengthInContent.toNat)
          lineLength lineLengthInContent
    else []

/-- The `bytes_per_sep <= 0` branch of `SledSerializer._fold_hex_lines`:
shorten each line so groups stay intact, dropping the group separator that
would fall at a line break. -/
def foldHexLinesNeg (cfg : Config) (hexContent : List Char)
    (hexBytesPerSeparator : Int) : List (List Char) :=
  let separatorLength : Int := (effHexHorizontalSeparator cfg).length
  let pair :=
    if !(hexBytesPerSeparator == 0)
        && !(effHexHorizontalSeparator cfg == "") then
      let remainderLength := Int.fmod (cfg.hexLineLength + separatorLength)
        (2 * hexBytesPerSeparator + separatorLength)
      let lineLength := cfg.hexLineLength - remainderLength
      (lineLength, lineLength + separatorLength)
    else (cfg.hexLineLength, cfg.hexLineLength)
  sliceHexLines (hexContent.length + 1) hexContent 0 pair.1 pair.2

/-- `SledSerializer._fold_hex_lines`: a right-to-left grouping is folded by
reversing, folding left-to-right, reversing back, and right-aligning the
partial leading line. -/
def foldHexLines (cfg : Config) (hexContent : List Char)
    (hexBytesPerSeparator : Int) : List (List Char) :=
  if 0 < hexBytesPerSeparator then
    let reversedLines := foldHexLinesNeg cfg hexContent.reverse
      (-hexBytesPerSeparator)
    let lines := (reversedLines.map List.reverse).reverse
    match lines with
    | l0 :: l1 :: rest => rjust l0 l1.length ' ' :: l1 :: rest
    | ls => ls
  else foldHexLinesNeg cfg hexContent hexBytesPerSeparator

/-- `SledSerializer.to_hex` (lines 305-327): short content stays on one
line; longer content is folded.  Python's `or` short-circuits, so with a
non-positive line length the bound-method content is interpolated without
ever reaching `len(content)`; otherwise `len` of the bound method raises
`TypeError`. -/
def canonToHex (cfg : Config) (b : List Nat) (indent : String) :
    Except PyExc String :=
  let content := canonToHexContent cfg b
  if cfg.hexLineLength ≤ 0 then
    .ok (keywordLexeme "hex" ++ "(" ++ pyStrInterp content ++ ")")
  else
    match content with
    | .boundMethodUpper _ =>
      .error (.typeError
        "object of type 'builtin_function_or_method' has no len()")
    | .str c =>
      if (c.length : Int) < cfg.hexLineLength then
        .ok (keywordLexeme "hex" ++ "(" ++ c ++ ")")
      else
        let lines := foldHexLines cfg c.data (effHexBytesPerSeparator cfg)
        let lastLineSeparator := cfg.lineSeparator ++ indent
        let lineSeparator := lastLineSeparator ++ cfg.indent
        let joinedLines := String.join
          (lines.map (fun line => lineSeparator ++ String.mk line))
        .ok (keywordLexeme "hex" ++ "(" ++ joinedLines
          ++ lastLineSeparator ++ ")")

/-! ## The recursive serializer

`SledSerializer` (canonical) and `SledSerializerMini` share
`SledSerializerBasic`'s traversal and differ in the overridden layout
methods; the variant tag selects the override.  The custom-serialization
hook (`to_sled_serializable`) and dataclass reflection are host-language
adapters outside the core (spec §1); on the plain `Entity` tree `_unwrap`
is the identity, which is how it is modelled here. -/

/-- Which serializer subclass a call goes through. -/
inductive SerVariant where
  | canonical
  | mini
deriving DecidableEq, Repr

/-- Is the key a Python `str`? -/
def PyKeyVal.isStr : PyKeyVal → Bool
  | .s _ => true
  | _ => false

/-- Is the key a Python `int`? -/
def PyKeyVal.isInt : PyKeyVal → Bool
  | .i _ => true
  | _ => false

/-- `f"{k}"` on a map key. -/
def pyKeyValStr : PyKeyVal → String
  | .s v => v
  | .i v => pyFormatIntPlain v
  | .f x => pyFloatStr x

/-- `to_integer` through the variant's override. -/
def toIntegerV : SerVariant → Int → Except PyExc String
  | .canonical => basicToInteger
  | .mini => miniToInteger

/-- `to_float` through the variant's override. -/
def toFloatV : SerVariant → Config → PyFloat → String
  | .canonical => canonToFloat
  | .mini => miniToFloat

/-- `to_string` through the variant's override. -/
def toStringV : SerVariant → Config → String → String → String
  | .canonical => canonToString
  | .mini => basicToString

/-- `to_hex` through the variant's override (`SledSerializerMini` inherits
the basic method). -/
def toHexV (v : SerVariant) (cfg : Config) (b : List Nat) (indent : String) :
    Except PyExc String :=
  match v with
  | .canonical => canonToHex cfg b indent
  | .mini => .ok (basicToHex cfg b)

/-- `SledSerializerBasic._validate_distinct_map_keys`: tally the keys and
raise a `ValueError` naming every repeated key with its count. -/
def validateDistinctMapKeys (keys : List PyKeyVal) : Except PyExc Unit :=
  let dups := keys.eraseDups.filterMap (fun k =>
    let count := keys.count k
    if 1 < count then
      some (pyKeyValStr k ++ " (" ++ toString count ++ ")")
    else Option.none)
  if dups.isEmpty then .ok ()
  else
    .error (.valueError
      ("Serialization would result in repeated Sled keys in the same map: "
        ++ String.intercalate ", " dups))

/-- `to_smap_content` through the variant's override, with the one-level
entity encoder passed in. -/
def toSmapContentV (v : SerVariant) (cfg : Config)
    (toEnt : Entity → String → Except PyExc String)
    (pairs : List (PyKeyVal × Entity)) (indent : String) :
    Except PyExc String := do
  let parts ← pairs.mapM (fun p => do
    let keyStr :=
      match p.1 with
      | .s ks => toStringV v cfg ks indent
      | other => pyKeyValStr other  -- unreachable: caller checked str keys
    let valueStr ← toEnt p.2 indent
    match v with
    | .canonical => pure (keyStr ++ " = " ++ valueStr)
    | .mini => pure (keyStr ++ "=" ++ valueStr))
  match v with
  | .canonical =>
    pure (String.intercalate (cfg.lineSeparator ++ indent) parts)
  | .mini => pure (String.intercalate ";" parts)

/-- `to_imap_content` through the variant's override. -/
def toImapContentV (v : SerVariant) (cfg : Config)
    (toEnt : Entity → String → Except PyExc String)
    (pairs : List (PyKeyVal × Entity)) (indent : String) :
    Except PyExc String := do
  let parts ← pairs.mapM (fun p => do
    let keyStr ←
      match p.1 with
      | .i kn => toIntegerV v kn
      | other => pure (pyKeyValStr other)  -- unreachable: caller checked
    let valueStr ← toEnt p.2 indent
    match v with
    | .canonical => pure (keyStr ++ " = " ++ valueStr)
    | .mini => pure (keyStr ++ "=" ++ valueStr))
  match v with
  | .canonical =>
    pure (String.intercalate (cfg.lineSeparator ++ indent) parts)
  | .mini => pure (String.intercalate ";" parts)

/-- `SledSerializerBasic.to_map_content` (lines 344-359): dispatch on the
key kind after unwrapping, validating distinctness; mixed or non-key kinds
raise `TypeError`. -/
def toMapContentV (v : SerVariant) (cfg : Config)
    (toEnt : Entity → String → Except PyExc String)
    (pairs : List (PyKeyVal × Entity)) (indent : String) :
    Except PyExc String :=
  if pairs.all (fun p => p.1.isStr) then do
    let _ ← validateDistinctMapKeys (pairs.map Prod.fst)
    toSmapContentV v cfg toEnt pairs indent
  else if pairs.all (fun p => p.1.isInt) then do
    let _ ← validateDistinctMapKeys (pairs.map Prod.fst)
    toImapContentV v cfg toEnt pairs indent
  else
    .error (.typeError
      ("Unable to serialize mapping as a Sled smap or imap. For smap, "
        ++ "every key must serialize to a string. For imap, every key must "
        ++ "serialize to an integer."))

/-- `_enclose_map_content` through the variant's override. -/
def encloseMapContentV (v : SerVariant) (cfg : Config) (content : String)
    (indent : String) : String :=
  match v with
  | .canonical =>
    let lastLineSeparator := cfg.lineSeparator ++ indent
    let lineSeparator := cfg.lineSeparator ++ indent ++ cfg.indent
    "\x7b" ++ lineSeparator ++ content ++ lastLineSeparator ++ "\x7d"
  | .mini => "\x7b" ++ content ++ "\x7d"

/-- `to_map` through the variant's override. -/
def toMapV (v : SerVariant) (cfg : Config)
    (toEnt : Entity → String → Except PyExc String)
    (pairs : List (PyKeyVal × Entity)) (indent : String) :
    Except PyExc String := do
  match v with
  | .canonical => do
    let nestedIndent := indent ++ cfg.indent
    let content ← toMapContentV v cfg toEnt pairs nestedIndent
    pure (encloseMapContentV v cfg content indent)
  | .mini => do
    let content ← toMapContentV v cfg toEnt pairs ""
    pure (encloseMapContentV v cfg content "")

/-- `to_list` through the variant's override. -/
def toListV (v : SerVariant) (cfg : Config)
    (toEnt : Entity → String → Except PyExc String)
    (xs : List Entity) (indent : String) : Except PyExc String := do
  match v with
  | .canonical => do
    let nestedIndent := indent ++ cfg.indent
    let lastLineSeparator := cfg.lineSeparator ++ indent
    let lineSeparator := cfg.lineSeparator ++ nestedIndent
    let parts ← xs.mapM (fun x => toEnt x nestedIndent)
    let content := String.join (parts.map (fun p => lineSeparator ++ p))
    pure ("[" ++ content ++ lastLineSeparator ++ "]")
  | .mini => do
    let parts ← xs.mapM (fun x => toEnt x "")
    pure ("[" ++ String.intercalate ";" parts ++ "]")

/-- `SledSerializerBasic.to_entity` with `_try_base_concrete`: the scalar
cases in the source's `isinstance` order (`None`, `bool`, `bytes`, `int`,
`float`, `str` — disjoint constructors here), then maps and lists, each
one nesting level deeper on the fuel. -/
def toEntityFuel (v : SerVariant) (cfg : Config) :
    Nat → Entity → String → Except PyExc String
  | 0, _, _ => .error .outOfFuel
  | fuel + 1, e, indent =>
    match e with
    | Entity.none => .ok (keywordLexeme "nil")
    | .bool b => .ok (toBoolean b)
    | .bytes bs => toHexV v cfg bs indent
    | .int n => toIntegerV v n
    | .float x => .ok (toFloatV v cfg x)
    | .str s => .ok (toStringV v cfg s indent)
    | .dict pairs =>
      toMapV v cfg (fun e2 i2 => toEntityFuel v cfg fuel e2 i2) pairs indent
    | .list xs =>
      toListV v cfg (fun e2 i2 => toEntityFuel v cfg fuel e2 i2) xs indent

/-- `to_top_level_smap_str`. -/
def toTopLevelSmapStrV (v : SerVariant) (cfg : Config)
    (toEnt : Entity → String → Except PyExc String)
    (pairs : List (PyKeyVal × Entity)) : Except PyExc String :=
  if cfg.useTopLevelBraces then do
    let content ← toSmapContentV v cfg toEnt pairs cfg.indent
    pure (encloseMapContentV v cfg content "")
  else
    toSmapContentV v cfg toEnt pairs ""

/-- `to_top_level_smap`: the canonical serializer appends a hard-coded
line feed; the minified override does not. -/
def toTopLevelSmapV (v : SerVariant) (cfg : Config)
    (toEnt : Entity → String → Except PyExc String)
    (pairs : List (PyKeyVal × Entity)) : Except PyExc String := do
  let s ← toTopLevelSmapStrV v cfg toEnt pairs
  match v with
  | .canonical => pure (s ++ "\n")
  | .mini => pure s

/-- `to_sled` (`_serializer_basic.py` lines 157-208) on an `Entity` tree:
a string-keyed map becomes the top-level document; any other value is a
`TypeError`.  (`_unwrap` and dataclass reflection are adapter concerns
outside the core and are identities/absent on `Entity`.)  The `fuel`
argument is the embedding's bound on the tree's nesting depth — Python
recurses without one — so each use below supplies a fuel visibly larger
than its input's depth. -/
def toSled (v : SerVariant) (cfg : Config) (fuel : Nat) (obj : Entity) :
    Except PyExc String :=
  match obj with
  | .dict pairs =>
    if pairs.all (fun p => p.1.isStr) then
      toTopLevelSmapV v cfg
        (fun e2 i2 => toEntityFuel v cfg fuel e2 i2) pairs
    else
      .error (.typeError
        ("For serialization as a full (top level) Sled document, the "
          ++ "underlying data to be serialized must be a Mapping with str "
          ++ "keys or a dataclass, but got a Mapping with other key types."))
  | _ =>
    .error (.typeError
      ("For serialization as a full (top level) Sled document, the "
        ++ "underlying data to be serialized must be a Mapping with str "
        ++ "keys or a dataclass."))

/-- Run `Parser._parse_number_excl_keyword` directly on a fresh parser over
the given text, as `_parse_map_key` does for a key in number position. -/
def parseNumberOn (s : String) : Except PyExc (PyKeyVal × ParseSnapshot) :=
  match parseNumberExclKeyword.run
      { text := standardizeLineSeparator s.data, index := 0,
        lineNum := 1, lineStart := 0 } with
  | .ok (r, _) => .ok r
  | .error e => .error e

/-! ## Claim theorems -/

/-- C1: the round-trip `parse (serialize v)` fails on the code for a
string-keyed map holding the in-range integer 50: both the canonical and
the minified serializer emit the expected text (`age = 50` and `age=50`),
but parsing that text back raises a Syntax error instead of returning the
map, because `Parser._parse_entity` compares the peeked character with
`NUMBER_START_SET` using `==` instead of `in`, leaving numbers unreachable
in value position. -/
theorem C1_serialize_then_parse_fails_for_integers :
    toSled .canonical defaultConfig 4 (Entity.dict [(.s "age", .int 50)])
        = .ok "age = 50\n"
      ∧ excCategory (fromSled "age = 50\n") = some .SYNTAX
      ∧ toSled .mini defaultConfig 4 (Entity.dict [(.s "age", .int 50)])
        = .ok "age=50"
      ∧ excCategory (fromSled "age=50") = some .SYNTAX
      ∧ excReason (fromSled "age = 50\n")
        = some "Invalid entity. No entity starts with '5'." :=
  ⟨rfl, rfl, rfl, rfl, rfl⟩

/-- C2: parsing the example document from the module docstring does not
succeed — it fails on line 2 (`age = 50`) with a Syntax error, because a
number literal is not reachable in value position (the `==` versus `in`
slip in `Parser._parse_entity`).  The same document without the integer
pair parses exactly as expected, isolating the number branch as the
failure. -/
theorem C2_example_document_is_rejected :
    excCategory
        (fromSled "name = \"John Doe\"\nage = 50\nchildren = [Jane; Jimmy]\n")
        = some .SYNTAX
      ∧ excReason
        (fromSled "name = \"John Doe\"\nage = 50\nchildren = [Jane; Jimmy]\n")
        = some "Invalid entity. No entity starts with '5'."
      ∧ excLineNum
        (fromSled "name = \"John Doe\"\nage = 50\nchildren = [Jane; Jimmy]\n")
        = some 2
      ∧ fromSled "name = \"John Doe\"\nchildren = [Jane; Jimmy]\n"
        = .ok [(.s "name", .str "John Doe"),
               (.s "children", .list [.str "Jane", .str "Jimmy"])] :=
  ⟨rfl, rfl, rfl, rfl⟩

/-- C3: parsing `a = 1\na = 2\n` does not reach duplicate-key detection —
it fails with a Syntax error at the value `1` (numbers are unreachable in
value position).  The aggregated `DUPLICATE_MAP_KEY` error itself works as
the claim describes once the values are parseable: `a = x\na = y\n` fails
after all pairs are read, with one message listing both occurrences' line
numbers. -/
theorem C3_duplicate_key_input_fails_as_syntax :
    excCategory (fromSled "a = 1\na = 2\n") = some .SYNTAX
      ∧ excReason (fromSled "a = 1\na = 2\n")
        = some "Invalid entity. No entity starts with '1'."
      ∧ excCategory (fromSled "a = x\na = y\n") = some .DUPLICATE_MAP_KEY
      ∧ excMessage (fromSled "a = x\na = y\n")
        = some ("Sled map starting on line 1 at index 0 contains "
            ++ "duplicate keys.\na: line 1 index 0, line 2 index 0") :=
  ⟨rfl, rfl, rfl, rfl⟩

/-- C4 (counterexample): parsing the mixed-key map does fail, but the
raised error's category is not `MapKeyTypeMismatch`. -/
theorem C4_mixed_keys_error_category_not_map_key_type :
    ¬ (excCategory (fromSled "\x7ba = 1; 2 = 3\x7d")
        = some SledErrorCategory.MAP_KEY_TYPE) := by
  decide

/-- C4 (amended): parsing the string-key-then-integer-key map
`\x7ba = 1; 2 = 3\x7d` fails with an error of category Syntax — the parse
is rejected already at the value `1` (numbers being unreachable in value
position), before the mismatched key `2` is even seen; and
`Parser._parse_string`, which would meet the key `2`, also reports a
Syntax-category error, never `MAP_KEY_TYPE`. -/
theorem C4_mixed_keys_fail_with_syntax_category :
    excCategory (fromSled "\x7ba = 1; 2 = 3\x7d") = some .SYNTAX
      ∧ excReason (fromSled "\x7ba = 1; 2 = 3\x7d")
        = some "Invalid entity. No entity starts with '1'." :=
  ⟨rfl, rfl⟩

/-- C5: parsing the maximal 64-bit literal as a value does not succeed —
it fails with a Syntax error before the number routine is reached (the
`==` versus `in` slip).  The number routine itself behaves exactly as the
claim states: invoked directly (as key parsing does), it yields the
integer for `9223372036854775807`, rejects `9223372036854775808` with
`NUMBER_RANGE`, and the serializer's `validate_integer` rejects the value
one above the maximum with the same category. -/
theorem C5_integer_bounds_behaviour :
    excCategory (fromSled "x = 9223372036854775807\n") = some .SYNTAX
      ∧ parseNumberOn "9223372036854775807"
        = .ok (.i 9223372036854775807,
            { startIndex := 0, endIndex := 19, lineNum := 1,
              lineStart := 0, sledType := some .INTEGER })
      ∧ excCategory (parseNumberOn "9223372036854775808") = some .NUMBER_RANGE
      ∧ excCategory (validateInteger 9223372036854775808)
        = some .NUMBER_RANGE :=
  ⟨rfl, rfl, rfl, rfl⟩

/-- C6: a nested map whose keys are the distinct integer literals 1 and 2
does not parse successfully — parsing the second key calls
`Parser._parse_integer`, whose first statement reads the never-assigned
attribute `self._start_index`, so the whole parse aborts with Python's
`AttributeError` rather than producing the integer-keyed map. -/
theorem C6_integer_keyed_map_raises_attribute_error :
    fromSled "m = \x7b1 = @true; 2 = @false\x7d\n"
      = .error (.attributeError "_start_index") := rfl

/-- C7: `parse` can terminate with an exception that is not a `SledError`:
on a document whose nested map has two integer keys it raises
`AttributeError` (from the undefined `_start_index` in
`Parser._parse_integer`), so the never-raises-anything-else guarantee does
not hold of the code. -/
theorem C7_parse_raises_non_sled_exception :
    raisesNonSledExc (fromSled "k = \x7b10 = @nil; 20 = @nil\x7d\n") = true
      ∧ fromSled "k = \x7b10 = @nil; 20 = @nil\x7d\n"
        = .error (.attributeError "_start_index") :=
  ⟨rfl, rfl⟩

/-- C8: the keyword literals `@nan`, `@inf`, `@ninf` in value position
parse to NaN, +Infinity and -Infinity, and serializing those floats emits
exactly the keyword lexemes — under every configuration, through
`to_float_custom` for either thousands-separator flag, and through both
the canonical and the minified variant's `to_float`. -/
theorem C8_keyword_floats_parse_and_serialize :
    fromSled "x = @nan\ny = @inf\nz = @ninf\n"
        = .ok [(.s "x", .float .nan), (.s "y", .float .inf),
               (.s "z", .float .ninf)]
      ∧ (∀ (cfg : Config) (b : Bool),
          toFloatCustom cfg .nan b = "@nan"
            ∧ toFloatCustom cfg .inf b = "@inf"
            ∧ toFloatCustom cfg .ninf b = "@ninf")
      ∧ (∀ cfg : Config,
          canonToFloat cfg .nan = "@nan" ∧ canonToFloat cfg .inf = "@inf"
            ∧ canonToFloat cfg .ninf = "@ninf"
            ∧ miniToFloat cfg .nan = "@nan" ∧ miniToFloat cfg .inf = "@inf"
            ∧ miniToFloat cfg .ninf = "@ninf") :=
  ⟨rfl, fun _ _ => ⟨rfl, rfl, rfl⟩, fun _ => ⟨rfl, rfl, rfl, rfl, rfl, rfl⟩⟩

/-- C9: with the hex upper-case option enabled the serializer does not
emit an uppercase digest: `_to_hex_content` returns the un-called bound
method `content.upper` (the source omits the call parentheses), in both
the basic and the canonical variant; the canonical `to_hex` then crashes
with `TypeError` at `len(content)`.  With the option disabled the digest
is the lowercase hex of the bytes (with the configured grouping), as
claimed. -/
theorem C9_hex_upper_case_returns_bound_method :
    basicToHexContent false [0xde, 0xad, 0xbe, 0xef] = .str "deadbeef"
      ∧ basicToHexContent true [0xde, 0xad, 0xbe, 0xef]
        = .boundMethodUpper "deadbeef"
      ∧ (∀ s : String,
          ¬ basicToHexContent true [0xde, 0xad, 0xbe, 0xef] = .str s)
      ∧ canonToHexContent defaultConfig [0xde, 0xad, 0xbe, 0xef]
        = .str "dead_beef"
      ∧ canonToHexContent { defaultConfig with hexUpperCase := true }
          [0xde, 0xad, 0xbe, 0xef] = .boundMethodUpper "dead_beef"
      ∧ canonToHex { defaultConfig with hexUpperCase := true }
          [0xde, 0xad, 0xbe, 0xef] ""
        = .error (.typeError
            "object of type 'builtin_function_or_method' has no len()") :=
  ⟨rfl, rfl, fun _ h => PyStr.noConfusion h, rfl, rfl, rfl⟩

/-- C10: `<` and `>` are reserved.  Every string containing either
character is disqualified from bare-identity form by `_try_to_identity`
under every configuration (so `to_string` emits a quote), and parsing a
document whose value is a bare token containing `<` fails with a Syntax
error. -/
theorem C10_angle_brackets_reserved :
    (∀ (cfg : Config) (s : String) (indent : String),
        (s.data.any (fun c => c == '<' || c == '>')) = true →
          tryToIdentity cfg s = ""
            ∧ basicToString cfg s indent
              = quoteWrap cfg (escapeString cfg s))
      ∧ excCategory (fromSled "x = a<b") = some .SYNTAX := by
  constructor
  · intro cfg s indent h
    rcases List.any_eq_true.mp h with ⟨c, hc, hcp⟩
    have hid : identityDisallowedChar c = true := by
      have hcp2 : c = '<' ∨ c = '>' := by simpa using hcp
      rcases hcp2 with hce | hce
      · subst hce; decide
      · subst hce; decide
    have hany : s.data.any identityDisallowedChar = true :=
      List.any_eq_true.mpr ⟨c, hc, hid⟩
    have hsne : s ≠ "" := by
      intro he
      subst he
      simp at hc
    have hbe : (s == "") = false := beq_eq_false_iff_ne.mpr hsne
    have htry : tryToIdentity cfg s = "" := by
      simp [tryToIdentity, hany]
    refine ⟨htry, ?_⟩
    simp [basicToString, hbe, htry]
  · rfl

/-- Witness for C10 at the concrete string `a<b` under the default
configuration: it is refused as an identity and emitted as a quote. -/
theorem C10_angle_brackets_reserved_witness :
    tryToIdentity defaultConfig "a<b" = ""
      ∧ basicToString defaultConfig "a<b" ""
        = quoteWrap defaultConfig (escapeString defaultConfig "a<b") :=
  C10_angle_brackets_reserved.1 defaultConfig "a<b" "" (by decide)

end Sled
